import Mathlib

/-!
Shallow embedding of the service resource lifecycle logic of
terraform-provider-clickhouse (src/clickhouse/service.go), together with
models of the remote-API payload types used by that file. The collaborator
client and the generic helpers `diffArrays` and `equal` live outside the
provided sources; they are modelled from the specification where noted.
-/

set_option autoImplicit false

namespace Clickhouse

/-- Model of the terraform-plugin-framework `types.String` value: a string
value together with a knownness flag (a null or unknown value is modelled as
not known). `ValueString` returns the empty string for a non-known value. -/
structure TString where
  known : Bool
  value : String
deriving DecidableEq

def TString.valueString (s : TString) : String :=
  if s.known then s.value else ""

/-- Model of Go `strconv.Quote` restricted to printable characters: the
string surrounded by double quotes, with backslash and double quote
escaped. -/
def goQuote (s : String) : String :=
  "\"" ++ String.join (s.data.map (fun c =>
    if c = '\\' then "\\\\" else if c = '"' then "\\\"" else String.mk [c])) ++ "\""

/-- Model of the framework method `types.String.String()`: the quoted
representation of a known value, the placeholder text otherwise. -/
def TString.goString (s : TString) : String :=
  if s.known then goQuote s.value else "<null>"

/-- Model of the terraform-plugin-framework `types.Bool` value. -/
structure TBool where
  known : Bool
  value : Bool
deriving DecidableEq

def TBool.valueBool (b : TBool) : Bool :=
  if b.known then b.value else false

/-- Model of `types.Bool.ValueBoolPointer()`: `nil` for a non-known value,
a pointer to the value otherwise. -/
def TBool.valueBoolPointer (b : TBool) : Option Bool :=
  if b.known then some b.value else none

/-- Model of the terraform-plugin-framework `types.Int64` value. Go int64
arithmetic never overflows in the embedded code (values are only copied and
compared), so the value is carried as an unbounded integer. -/
structure TInt64 where
  known : Bool
  value : Int
deriving DecidableEq

def TInt64.valueInt64 (i : TInt64) : Int :=
  if i.known then i.value else 0

/-- Remote API access-list entry, fields as used by service.go. -/
structure IpAccess where
  source : String
  description : String
deriving DecidableEq

/-- Remote API endpoint record (protocol, host, port). -/
structure Endpoint where
  protocol : String
  host : String
  port : Int
deriving DecidableEq

/-- Remote API service state payload, fields as read by service.go. -/
structure Service where
  id : String
  name : String
  provider : String
  region : String
  tier : String
  idleScaling : Bool
  ipAccessList : List IpAccess
  minTotalMemoryGb : Int
  maxTotalMemoryGb : Int
  idleTimeoutMinutes : Int
  state : String
  endpoints : List Endpoint
deriving DecidableEq

/-- Add/remove payload for the access list inside a general service update. -/
structure IpAccessUpdate where
  add : List IpAccess
  remove : List IpAccess
deriving DecidableEq

/-- General service update payload: service.go initialises it as
`ServiceUpdate{Name: "", IpAccessList: nil}` and fills only changed parts. -/
structure ServiceUpdate where
  name : String
  ipAccessList : Option IpAccessUpdate
deriving DecidableEq

/-- Scaling update payload. service.go builds it with a struct literal that
sets only `IdleScaling`, so the three integer fields start at the Go zero
value 0 (their type is a plain `int`, forced by the assignments
`serviceScaling.MinTotalMemoryGb = int(...)` in service.go). -/
structure ServiceScalingUpdate where
  idleScaling : Option Bool
  minTotalMemoryGb : Int := 0
  maxTotalMemoryGb : Int := 0
  idleTimeoutMinutes : Int := 0
deriving DecidableEq

/-- Response of the password-update call: service.go reads only the
`Password` field of the response. -/
structure PasswordResponse where
  password : String
deriving DecidableEq

/-- Nested attribute model for one `ip_access` entry. -/
structure IpAccessModel where
  source : TString
  description : TString
deriving DecidableEq

/-- The `serviceResourceModel` of service.go. The computed `endpoints` list
value is modelled directly as its list of endpoint records. -/
structure ServiceResourceModel where
  id : TString
  name : TString
  password : TString
  endpoints : List Endpoint
  cloudProvider : TString
  region : TString
  tier : TString
  idleScaling : TBool
  ipAccessList : List IpAccessModel
  minTotalMemoryGb : TInt64
  maxTotalMemoryGb : TInt64
  idleTimeoutMinutes : TInt64
  lastUpdated : TString
deriving DecidableEq

/-- Conversion performed in service.go when building API payloads from the
resource model. -/
def IpAccessModel.toIpAccess (m : IpAccessModel) : IpAccess :=
  { source := m.source.valueString, description := m.description.valueString }

/-- The key function passed to the diff engine at service.go line 396:
`fmt.Sprintf("%s:%s", a.Source, a.Description)`. -/
def accessKey (a : IpAccess) : String :=
  a.source ++ ":" ++ a.description

/-- Modelled from the spec: the diff engine `diffArrays` is not among the
provided sources. Per the spec, `diff(old, new) = (new minus old, old minus
new)` computed by key equality, order independent and defined on empty
inputs. -/
def diffArrays {α : Type} (old nw : List α) (key : α → String) : List α × List α :=
  (nw.filter (fun n => old.all (fun o => !(key o == key n))),
   old.filter (fun o => nw.all (fun n => !(key n == key o))))

/-- Modelled from the spec: the helper `equal` used at service.go line 370
is not among the provided sources. Per the spec, two access collections are
equal iff they contain the same identity keys, the key being the composite
of source and description. -/
def equal (a b : List IpAccessModel) : Bool :=
  a.all (fun x => b.any (fun y => y.toIpAccess == x.toIpAccess)) &&
  b.all (fun y => a.any (fun x => x.toIpAccess == y.toIpAccess))

/-- One remote mutating call issued by Update, with its payload. The
password payload is the plaintext handed to
`ServicePasswordUpdateFromPlainPassword`. -/
inductive RemoteCall where
  | updateService (id : String) (u : ServiceUpdate)
  | updateServiceScaling (id : String) (u : ServiceScalingUpdate)
  | updateServicePassword (id : String) (plaintext : String)
deriving DecidableEq

/-- Position of a call kind in the fixed dispatch order of Update. -/
def RemoteCall.kindIndex : RemoteCall → Nat
  | .updateService _ _ => 0
  | .updateServiceScaling _ _ => 1
  | .updateServicePassword _ _ => 2

/-- Collaborator behaviour for the three mutating calls Update can issue. -/
structure UpdateOracle where
  updateService : String → ServiceUpdate → Except String Service
  updateServiceScaling : String → ServiceScalingUpdate → Except String Service
  updateServicePassword : String → String → Except String PasswordResponse

/-- Outcome of the embedded Update: validation failure, remote failure, the
two Go runtime faults the function can reach, or a final resource model. -/
inductive UpdateResult where
  | immutableViolation (fields : List String)
  | remoteError (msg : String)
  | nilDeref
  | indexOutOfRange
  | ok (m : ServiceResourceModel)
deriving DecidableEq

/-- Immutable-field check of Update (service.go lines 330 to 356): each
differing field adds one attribute error before the single error check. -/
def violatedFields (plan st : ServiceResourceModel) : List String :=
  (if plan.cloudProvider = st.cloudProvider then [] else ["cloud_provider"]) ++
  (if plan.region = st.region then [] else ["region"]) ++
  (if plan.tier = st.tier then [] else ["tier"])

/-- Whether the general service-update call fires (name change or access
list change, service.go lines 366 to 404). -/
def serviceChangeB (plan st : ServiceResourceModel) : Bool :=
  decide (plan.name ≠ st.name) || !(equal plan.ipAccessList st.ipAccessList)

/-- The `ServiceUpdate` payload built by Update (service.go lines 360 to
404): name only when changed, the access list as the diff-engine add and
remove sets only when the lists differ. -/
def buildServiceUpdate (plan st : ServiceResourceModel) : ServiceUpdate :=
  { name := if plan.name ≠ st.name then plan.name.valueString else ""
    ipAccessList :=
      if equal plan.ipAccessList st.ipAccessList then none
      else
        some { add := (diffArrays (st.ipAccessList.map IpAccessModel.toIpAccess)
                        (plan.ipAccessList.map IpAccessModel.toIpAccess) accessKey).1
               remove := (diffArrays (st.ipAccessList.map IpAccessModel.toIpAccess)
                        (plan.ipAccessList.map IpAccessModel.toIpAccess) accessKey).2 } }

/-- Whether the scaling call fires (service.go lines 420 to 444). -/
def scalingChangeB (plan st : ServiceResourceModel) : Bool :=
  decide (plan.idleScaling ≠ st.idleScaling) ||
  decide (plan.minTotalMemoryGb ≠ st.minTotalMemoryGb) ||
  decide (plan.maxTotalMemoryGb ≠ st.maxTotalMemoryGb) ||
  decide (plan.idleTimeoutMinutes ≠ st.idleTimeoutMinutes)

/-- The `ServiceScalingUpdate` payload built by Update (service.go lines 421
to 442): `IdleScaling` starts from the observed pointer and is replaced on
change; the integer fields are written only on change and otherwise keep the
zero value of the struct literal. -/
def buildScalingUpdate (plan st : ServiceResourceModel) : ServiceScalingUpdate :=
  let u0 : ServiceScalingUpdate := { idleScaling := st.idleScaling.valueBoolPointer }
  let u1 := if plan.idleScaling = st.idleScaling then u0
            else { u0 with idleScaling := some plan.idleScaling.valueBool }
  let u2 := if plan.minTotalMemoryGb = st.minTotalMemoryGb then u1
            else { u1 with minTotalMemoryGb := plan.minTotalMemoryGb.valueInt64 }
  let u3 := if plan.maxTotalMemoryGb = st.maxTotalMemoryGb then u2
            else { u2 with maxTotalMemoryGb := plan.maxTotalMemoryGb.valueInt64 }
  if plan.idleTimeoutMinutes = st.idleTimeoutMinutes then u3
  else { u3 with idleTimeoutMinutes := plan.idleTimeoutMinutes.valueInt64 }

/-- General-fields stage of Update: the calls it issues and either an error
or the optional observed state so far. -/
def generalStage (plan st : ServiceResourceModel) (o : UpdateOracle) (sid : String) :
    List RemoteCall × Except String (Option Service) :=
  if serviceChangeB plan st then
    match o.updateService sid (buildServiceUpdate plan st) with
    | Except.error e => ([RemoteCall.updateService sid (buildServiceUpdate plan st)],
        Except.error e)
    | Except.ok s => ([RemoteCall.updateService sid (buildServiceUpdate plan st)],
        Except.ok (some s))
  else ([], Except.ok none)

/-- Scaling stage of Update, threading the optional observed state. -/
def scalingStage (plan st : ServiceResourceModel) (o : UpdateOracle) (sid : String)
    (s1 : Option Service) : List RemoteCall × Except String (Option Service) :=
  if scalingChangeB plan st then
    match o.updateServiceScaling sid (buildScalingUpdate plan st) with
    | Except.error e => ([RemoteCall.updateServiceScaling sid (buildScalingUpdate plan st)],
        Except.error e)
    | Except.ok s => ([RemoteCall.updateServiceScaling sid (buildScalingUpdate plan st)],
        Except.ok (some s))
  else ([], Except.ok s1)

/-- Password stage of Update (service.go lines 456 to 472): the credential
seed is `state.Password.String()` (the quoted representation), replaced by
the plan value and possibly by a server-generated value when the call
fires. -/
def passwordStage (plan st : ServiceResourceModel) (o : UpdateOracle) (sid : String) :
    List RemoteCall × Except String String :=
  if plan.password = st.password then ([], Except.ok st.password.goString)
  else
    match o.updateServicePassword sid plan.password.valueString with
    | Except.error e => ([RemoteCall.updateServicePassword sid plan.password.valueString],
        Except.error e)
    | Except.ok res => ([RemoteCall.updateServicePassword sid plan.password.valueString],
        Except.ok (if res.password.length > 0 then res.password
                   else plan.password.valueString))

/-- Write-back loop of service.go lines 244 to 249 and 485 to 490: each
returned entry is stored at its index of the plan list; a remote list longer
than the plan list indexes out of range (Go panic), modelled as `none`. -/
def writeBackIpAccess (planList : List IpAccessModel) (remote : List IpAccess) :
    Option (List IpAccessModel) :=
  if remote.length ≤ planList.length then
    some ((remote.map (fun a =>
      ({ source := ⟨true, a.source⟩, description := ⟨true, a.description⟩ } : IpAccessModel)))
      ++ planList.drop remote.length)
  else none

/-- Final state write-back of Update (service.go lines 475 to 491). -/
def finalModel (plan : ServiceResourceModel) (sv : Service) (password : String)
    (l : List IpAccessModel) (now : String) : ServiceResourceModel :=
  { plan with
    id := ⟨true, sv.id⟩
    name := ⟨true, sv.name⟩
    password := ⟨true, password⟩
    cloudProvider := ⟨true, sv.provider⟩
    region := ⟨true, sv.region⟩
    tier := ⟨true, sv.tier⟩
    idleScaling := ⟨true, sv.idleScaling⟩
    minTotalMemoryGb := ⟨true, sv.minTotalMemoryGb⟩
    maxTotalMemoryGb := ⟨true, sv.maxTotalMemoryGb⟩
    idleTimeoutMinutes := ⟨true, sv.idleTimeoutMinutes⟩
    ipAccessList := l
    lastUpdated := ⟨true, now⟩ }

/-- Final write-back of Update after all calls succeeded (service.go lines
474 to 491): dereferences the possibly-nil observed state, then stores each
returned access entry at its index of the plan list. -/
def finishUpdate (plan : ServiceResourceModel) (password now : String) :
    Option Service → UpdateResult
  | none => UpdateResult.nilDeref
  | some sv =>
    match writeBackIpAccess plan.ipAccessList sv.ipAccessList with
    | none => UpdateResult.indexOutOfRange
    | some l => UpdateResult.ok (finalModel plan sv password l now)

/-- Continuation of Update after the password stage. -/
def afterPassword (plan st : ServiceResourceModel) (o : UpdateOracle) (sid now : String)
    (s1 s2 : Option Service) : Except String String → List RemoteCall × UpdateResult
  | Except.error e =>
      ((generalStage plan st o sid).1 ++ (scalingStage plan st o sid s1).1 ++
        (passwordStage plan st o sid).1, UpdateResult.remoteError e)
  | Except.ok password =>
      ((generalStage plan st o sid).1 ++ (scalingStage plan st o sid s1).1 ++
        (passwordStage plan st o sid).1, finishUpdate plan password now s2)

/-- Continuation of Update after the scaling stage. -/
def afterScaling (plan st : ServiceResourceModel) (o : UpdateOracle) (sid now : String)
    (s1 : Option Service) : Except String (Option Service) → List RemoteCall × UpdateResult
  | Except.error e =>
      ((generalStage plan st o sid).1 ++ (scalingStage plan st o sid s1).1,
        UpdateResult.remoteError e)
  | Except.ok s2 =>
      afterPassword plan st o sid now s1 s2 (passwordStage plan st o sid).2

/-- Continuation of Update after the general-fields stage. -/
def afterGeneral (plan st : ServiceResourceModel) (o : UpdateOracle) (sid now : String) :
    Except String (Option Service) → List RemoteCall × UpdateResult
  | Except.error e => ((generalStage plan st o sid).1, UpdateResult.remoteError e)
  | Except.ok s1 =>
      afterScaling plan st o sid now s1 (scalingStage plan st o sid s1).2

/-- The Update operation of service.go (lines 323 to 498): immutability
check, then up to three remote calls in the fixed order general, scaling,
password, each failure returning immediately, then the state write-back
which dereferences the possibly-nil observed state. -/
def update (plan st : ServiceResourceModel) (o : UpdateOracle) (now : String) :
    List RemoteCall × UpdateResult :=
  if violatedFields plan st ≠ [] then
    ([], UpdateResult.immutableViolation (violatedFields plan st))
  else
    afterGeneral plan st o st.id.valueString now
      (generalStage plan st o st.id.valueString).2

/-- Collaborator behaviour for Create: the create call returns the initial
state payload together with the server-generated credential; the poll fetch
is indexed by the attempt number so successive fetches may observe different
states. -/
structure CreateOracle where
  createService : Service → Except String (Service × String)
  getService : String → Nat → Except String Service
  updateServicePassword : String → String → Except String PasswordResponse

/-- Outcome of the embedded Create. `outOfFuel` marks runs longer than the
supplied fuel: the Go loop (service.go lines 204 to 219) is unbounded, so
every terminating Go run corresponds to a run with enough fuel. -/
inductive CreateResult where
  | createError (msg : String)
  | pollError (msg : String)
  | passwordError (msg : String)
  | indexOutOfRange
  | ok (m : ServiceResourceModel)
  | outOfFuel
deriving DecidableEq

/-- The provisioning poll loop of service.go lines 204 to 219: fetch by the
current id, stop on error or on any status other than provisioning,
otherwise retry with the freshly observed id. -/
def pollLoop (o : CreateOracle) : Nat → Nat → String → Option (Except String Service)
  | 0, _, _ => none
  | fuel + 1, attempt, sid =>
    match o.getService sid attempt with
    | Except.error e => some (Except.error e)
    | Except.ok s =>
      if s.state = "provisioning" then pollLoop o fuel (attempt + 1) s.id
      else some (Except.ok s)

/-- The create request payload built from the plan (service.go lines 177 to
192); all fields the plan does not supply keep the Go zero value, in
particular the endpoints list is empty. -/
def buildCreateService (plan : ServiceResourceModel) : Service :=
  { id := ""
    name := plan.name.valueString
    provider := plan.cloudProvider.valueString
    region := plan.region.valueString
    tier := plan.tier.valueString
    idleScaling := plan.idleScaling.valueBool
    ipAccessList := plan.ipAccessList.map IpAccessModel.toIpAccess
    minTotalMemoryGb := plan.minTotalMemoryGb.valueInt64
    maxTotalMemoryGb := plan.maxTotalMemoryGb.valueInt64
    idleTimeoutMinutes := plan.idleTimeoutMinutes.valueInt64
    state := ""
    endpoints := [] }

/-- The Create operation of service.go (lines 167 to 272). Faithful to the
source: the credential variable received from the create call is reassigned
from the plan before the length test (line 222), the endpoints written back
come from the request payload `service`, not from the fetched state `s`
(line 252), and the access-list write-back indexes into the plan list. -/
def create (plan : ServiceResourceModel) (o : CreateOracle) (fuel : Nat) (now : String) :
    CreateResult :=
  let service := buildCreateService plan
  match o.createService service with
  | Except.error e => CreateResult.createError e
  | Except.ok (s0, _) =>
    match pollLoop o fuel 0 s0.id with
    | none => CreateResult.outOfFuel
    | some (Except.error e) => CreateResult.pollError e
    | some (Except.ok s) =>
      let password := plan.password.valueString
      let finish : CreateResult :=
        match writeBackIpAccess plan.ipAccessList s.ipAccessList with
        | none => CreateResult.indexOutOfRange
        | some l =>
          CreateResult.ok
            { plan with
              id := ⟨true, s.id⟩
              name := ⟨true, s.name⟩
              password := ⟨true, password⟩
              cloudProvider := ⟨true, s.provider⟩
              region := ⟨true, s.region⟩
              tier := ⟨true, s.tier⟩
              idleScaling := ⟨true, s.idleScaling⟩
              minTotalMemoryGb := ⟨true, s.minTotalMemoryGb⟩
              maxTotalMemoryGb := ⟨true, s.maxTotalMemoryGb⟩
              idleTimeoutMinutes := ⟨true, s.idleTimeoutMinutes⟩
              ipAccessList := l
              endpoints := service.endpoints
              lastUpdated := ⟨true, now⟩ }
      if password.length > 0 then
        match o.updateServicePassword s.id password with
        | Except.error e => CreateResult.passwordError e
        | Except.ok _ => finish
      else finish

/-- The result of running one issued call against the oracle, payloads
erased: used to state which calls of a trace succeeded or failed. -/
def callResult (o : UpdateOracle) : RemoteCall → Except String Unit
  | RemoteCall.updateService sid u => (o.updateService sid u).map (fun _ => ())
  | RemoteCall.updateServiceScaling sid u => (o.updateServiceScaling sid u).map (fun _ => ())
  | RemoteCall.updateServicePassword sid p => (o.updateServicePassword sid p).map (fun _ => ())

/-! Concrete fixtures used to evaluate the embedded operations. -/

/-- A fixed access entry shared by the fixtures. -/
def accessA : IpAccessModel :=
  { source := ⟨true, "1.2.3.4/32"⟩, description := ⟨true, "A"⟩ }

/-- A baseline observed state model for Update runs. -/
def baseModel : ServiceResourceModel :=
  { id := ⟨true, "svc-1"⟩
    name := ⟨true, "svc"⟩
    password := ⟨true, "secret"⟩
    endpoints := []
    cloudProvider := ⟨true, "aws"⟩
    region := ⟨true, "us-east-1"⟩
    tier := ⟨true, "production"⟩
    idleScaling := ⟨true, true⟩
    ipAccessList := [accessA]
    minTotalMemoryGb := ⟨true, 24⟩
    maxTotalMemoryGb := ⟨true, 360⟩
    idleTimeoutMinutes := ⟨true, 5⟩
    lastUpdated := ⟨true, "t0"⟩ }

/-- A remote state payload matching the baseline model. -/
def svcR : Service :=
  { id := "svc-1", name := "svc", provider := "aws", region := "us-east-1"
    tier := "production", idleScaling := true
    ipAccessList := [{ source := "1.2.3.4/32", description := "A" }]
    minTotalMemoryGb := 24, maxTotalMemoryGb := 360, idleTimeoutMinutes := 10
    state := "running", endpoints := [] }

/-- An oracle whose three mutating calls always succeed with fixed
responses; the password response carries no generated credential. -/
def okOracle : UpdateOracle :=
  { updateService := fun _ _ => Except.ok svcR
    updateServiceScaling := fun _ _ => Except.ok svcR
    updateServicePassword := fun _ _ => Except.ok { password := "" } }

/-- Plan for the C1 run: identical to the baseline except the idle
timeout. -/
def c1Plan : ServiceResourceModel :=
  { baseModel with idleTimeoutMinutes := ⟨true, 10⟩ }

/-- Plan for the C2 run: identical to the baseline except the credential. -/
def c2Plan : ServiceResourceModel :=
  { baseModel with password := ⟨true, "newpw"⟩ }

/-- Plan for the C10 run: identical to the baseline except the name, so a
general call fires and the observed state pointer is non-nil. -/
def c10Plan : ServiceResourceModel :=
  { baseModel with name := ⟨true, "svc2"⟩ }

/-- Plan for the C9 run: identical to the baseline except the name. -/
def c9Plan : ServiceResourceModel :=
  { baseModel with name := ⟨true, "svc3"⟩ }

/-- Remote state whose access list has one entry more than the baseline
plan. -/
def svcBig : Service :=
  { svcR with ipAccessList := [{ source := "1.2.3.4/32", description := "A" },
                               { source := "5.6.7.8/32", description := "B" }] }

/-- An oracle whose general call returns a state carrying a longer access
list than the desired one. -/
def bigOracle : UpdateOracle :=
  { okOracle with updateService := fun _ _ => Except.ok svcBig }

/-- Create-request plan with an absent credential. -/
def c3Plan : ServiceResourceModel :=
  { baseModel with id := ⟨false, ""⟩, password := ⟨false, ""⟩ }

/-- Initial state payload returned by the create call, still
provisioning. -/
def svcProv : Service :=
  { svcR with idleTimeoutMinutes := 5, state := "provisioning" }

/-- Terminal state payload observed by the second poll, carrying one
endpoint record. -/
def svcReady : Service :=
  { svcR with
    idleTimeoutMinutes := 5
    state := "running"
    endpoints := [{ protocol := "https", host := "h.clickhouse.cloud", port := 8443 }] }

/-- Create oracle: the create call succeeds and returns the generated
credential, the first poll observes provisioning, the second observes the
terminal state. -/
def createOracle : CreateOracle :=
  { createService := fun _ => Except.ok (svcProv, "gen-pass-123")
    getService := fun _ attempt =>
      if attempt = 0 then Except.ok svcProv else Except.ok svcReady
    updateServicePassword := fun _ _ => Except.ok { password := "" } }

/-- C1: the claim states that an Update changing only the idle timeout
issues exactly one scaling call whose idle-scaling, min-memory and
max-memory fields equal the previously observed values. Evaluating the
embedded Update at such a run shows the single scaling call carries the
observed idle-scaling pointer but the Go zero value 0 for both memory
fields, not the observed 24 and 360: the code contradicts the claim. -/
theorem c1_scaling_zero_memory :
    (update c1Plan baseModel okOracle "t1").1 =
      [RemoteCall.updateServiceScaling "svc-1"
        { idleScaling := some true, minTotalMemoryGb := 0, maxTotalMemoryGb := 0,
          idleTimeoutMinutes := 10 }] ∧
    baseModel.minTotalMemoryGb.valueInt64 = 24 ∧
    baseModel.maxTotalMemoryGb.valueInt64 = 360 := by
  exact ⟨rfl, rfl, rfl⟩

/-- C2: the claim states that a credential-only Update completes and
propagates the last observed state with no nil dereference. Evaluating the
embedded Update at a credential-only run shows the password call is the only
call issued and the final write-back dereferences the nil observed-state
pointer (service.go line 475), a runtime panic. -/
theorem c2_nil_state_deref :
    update c2Plan baseModel okOracle "t2" =
      ([RemoteCall.updateServicePassword "svc-1" "newpw"], UpdateResult.nilDeref) := by
  exact rfl

/-- C3: the claim states that Create with an absent desired credential
records the non-empty server-generated credential. Evaluating the embedded
Create at such a run, with the collaborator generating "gen-pass-123",
shows the resulting state records the empty string: line 222 of service.go
reassigns the credential variable from the plan before testing it, losing
the generated value. -/
theorem c3_generated_password_lost :
    createOracle.createService (buildCreateService c3Plan) =
      Except.ok (svcProv, "gen-pass-123") ∧
    ∃ m, create c3Plan createOracle 3 "t3" = CreateResult.ok m ∧
      m.password = ⟨true, ""⟩ := by
  exact ⟨rfl, _, rfl, rfl⟩

/-- C4: the claim states that the endpoints recorded by Create equal the
endpoint records of the final observed state. Evaluating the embedded
Create at a run whose terminal observed state carries one endpoint shows the
recorded list is empty: line 252 of service.go ranges over the request
payload `service`, which never has endpoints, instead of the fetched state
`s`. -/
theorem c4_endpoints_from_request :
    svcReady.endpoints =
      [{ protocol := "https", host := "h.clickhouse.cloud", port := 8443 }] ∧
    ∃ m, create c3Plan createOracle 3 "t4" = CreateResult.ok m ∧
      m.endpoints = [] := by
  exact ⟨rfl, _, rfl, rfl⟩

/-- C9 counterexample: the claim states the access-list write-back indexing
is in bounds on every run. At a run whose general call returns a state with
two access entries while the desired list has one, the embedded Update
reaches the out-of-range write-back. -/
theorem c9_counterexample :
    (update c9Plan baseModel bigOracle "t9").2 = UpdateResult.indexOutOfRange ∧
    svcBig.ipAccessList.length = 2 ∧ c9Plan.ipAccessList.length = 1 := by
  exact ⟨rfl, rfl, rfl⟩

/-- C9 amended: the write-back used by Create and Update stays in bounds
exactly when the returned access list is no longer than the desired list;
a longer returned list indexes out of range. -/
theorem c9_write_back_bounds (planList : List IpAccessModel) (remote : List IpAccess) :
    (writeBackIpAccess planList remote).isSome = true ↔
      remote.length ≤ planList.length := by
  unfold writeBackIpAccess
  split
  · simpa using by assumption
  · simpa using by omega

/-- C10: the claim states that when the desired credential equals the
observed one, no credential call fires and the stored credential equals the
observed value byte-for-byte. Evaluating the embedded Update at such a run
shows no credential call in the trace, but the stored credential is the
quoted representation of the observed value, because service.go line 456
seeds it from `state.Password.String()` rather than `ValueString()`. -/
theorem c10_quoted_password :
    (update c10Plan baseModel okOracle "t10").1 =
      [RemoteCall.updateService "svc-1" { name := "svc2", ipAccessList := none }] ∧
    ∃ m, (update c10Plan baseModel okOracle "t10").2 = UpdateResult.ok m ∧
      m.password = ⟨true, "\"secret\""⟩ ∧
      baseModel.password = ⟨true, "secret"⟩ := by
  exact ⟨rfl, _, rfl, rfl, rfl⟩

/-! Helper lemmas about the Update stages. -/

theorem mem_violatedFields (plan st : ServiceResourceModel) :
    ("cloud_provider" ∈ violatedFields plan st ↔ plan.cloudProvider ≠ st.cloudProvider) ∧
    ("region" ∈ violatedFields plan st ↔ plan.region ≠ st.region) ∧
    ("tier" ∈ violatedFields plan st ↔ plan.tier ≠ st.tier) := by
  unfold violatedFields
  by_cases h1 : plan.cloudProvider = st.cloudProvider <;>
    by_cases h2 : plan.region = st.region <;>
      by_cases h3 : plan.tier = st.tier <;>
        simp [h1, h2, h3]

theorem violatedFields_nil (plan st : ServiceResourceModel)
    (h1 : plan.cloudProvider = st.cloudProvider) (h2 : plan.region = st.region)
    (h3 : plan.tier = st.tier) : violatedFields plan st = [] := by
  simp [violatedFields, h1, h2, h3]

theorem update_eq_violation (plan st : ServiceResourceModel) (o : UpdateOracle) (now : String)
    (hv : violatedFields plan st ≠ []) :
    update plan st o now = ([], UpdateResult.immutableViolation (violatedFields plan st)) := by
  unfold update
  rw [if_pos hv]

theorem update_eq_dispatch (plan st : ServiceResourceModel) (o : UpdateOracle) (now : String)
    (hv : violatedFields plan st = []) :
    update plan st o now =
      afterGeneral plan st o st.id.valueString now
        (generalStage plan st o st.id.valueString).2 := by
  unfold update
  rw [if_neg (by simp [hv])]

theorem generalStage_pos (plan st : ServiceResourceModel) (o : UpdateOracle) (sid : String)
    (hc : serviceChangeB plan st = true) :
    generalStage plan st o sid =
      match o.updateService sid (buildServiceUpdate plan st) with
      | Except.error e =>
          ([RemoteCall.updateService sid (buildServiceUpdate plan st)], Except.error e)
      | Except.ok s =>
          ([RemoteCall.updateService sid (buildServiceUpdate plan st)], Except.ok (some s)) := by
  unfold generalStage
  rw [if_pos hc]

theorem generalStage_neg (plan st : ServiceResourceModel) (o : UpdateOracle) (sid : String)
    (hc : serviceChangeB plan st = false) :
    generalStage plan st o sid = ([], Except.ok none) := by
  unfold generalStage
  rw [if_neg (by simp [hc])]

theorem scalingStage_pos (plan st : ServiceResourceModel) (o : UpdateOracle) (sid : String)
    (s1 : Option Service) (hc : scalingChangeB plan st = true) :
    scalingStage plan st o sid s1 =
      match o.updateServiceScaling sid (buildScalingUpdate plan st) with
      | Except.error e =>
          ([RemoteCall.updateServiceScaling sid (buildScalingUpdate plan st)], Except.error e)
      | Except.ok s =>
          ([RemoteCall.updateServiceScaling sid (buildScalingUpdate plan st)],
            Except.ok (some s)) := by
  unfold scalingStage
  rw [if_pos hc]

theorem scalingStage_neg (plan st : ServiceResourceModel) (o : UpdateOracle) (sid : String)
    (s1 : Option Service) (hc : scalingChangeB plan st = false) :
    scalingStage plan st o sid s1 = ([], Except.ok s1) := by
  unfold scalingStage
  rw [if_neg (by simp [hc])]

theorem passwordStage_same (plan st : ServiceResourceModel) (o : UpdateOracle) (sid : String)
    (hp : plan.password = st.password) :
    passwordStage plan st o sid = ([], Except.ok st.password.goString) := by
  unfold passwordStage
  rw [if_pos hp]

/-- C5: an Update whose desired spec changes the cloud provider, the region
or the tier fails with an immutability violation naming exactly the changed
fields among the three, and issues zero remote calls. -/
theorem c5_immutability (plan st : ServiceResourceModel) (o : UpdateOracle) (now : String)
    (h : plan.cloudProvider ≠ st.cloudProvider ∨ plan.region ≠ st.region ∨
      plan.tier ≠ st.tier) :
    (update plan st o now).1 = [] ∧
    (update plan st o now).2 = UpdateResult.immutableViolation (violatedFields plan st) ∧
    ("cloud_provider" ∈ violatedFields plan st ↔ plan.cloudProvider ≠ st.cloudProvider) ∧
    ("region" ∈ violatedFields plan st ↔ plan.region ≠ st.region) ∧
    ("tier" ∈ violatedFields plan st ↔ plan.tier ≠ st.tier) := by
  obtain ⟨m1, m2, m3⟩ := mem_violatedFields plan st
  have hne : violatedFields plan st ≠ [] := by
    rcases h with h | h | h
    · exact List.ne_nil_of_mem (m1.mpr h)
    · exact List.ne_nil_of_mem (m2.mpr h)
    · exact List.ne_nil_of_mem (m3.mpr h)
  rw [update_eq_violation plan st o now hne]
  exact ⟨rfl, rfl, m1, m2, m3⟩

/-- Plan for the C5 witness run: identical to the baseline except the
tier. -/
def c5Plan : ServiceResourceModel :=
  { baseModel with tier := ⟨true, "development"⟩ }

/-- Witness for C5 at a concrete tier-only change. -/
theorem c5_immutability_witness :
    (c5Plan.cloudProvider ≠ baseModel.cloudProvider ∨ c5Plan.region ≠ baseModel.region ∨
      c5Plan.tier ≠ baseModel.tier) ∧
    ((update c5Plan baseModel okOracle "t5").1 = [] ∧
     (update c5Plan baseModel okOracle "t5").2 =
       UpdateResult.immutableViolation (violatedFields c5Plan baseModel) ∧
     ("cloud_provider" ∈ violatedFields c5Plan baseModel ↔
       c5Plan.cloudProvider ≠ baseModel.cloudProvider) ∧
     ("region" ∈ violatedFields c5Plan baseModel ↔ c5Plan.region ≠ baseModel.region) ∧
     ("tier" ∈ violatedFields c5Plan baseModel ↔ c5Plan.tier ≠ baseModel.tier)) :=
  ⟨by decide, c5_immutability c5Plan baseModel okOracle "t5" (by decide)⟩

theorem diffArrays_mem_add {α : Type} (old nw : List α) (key : α → String) (e : α) :
    e ∈ (diffArrays old nw key).1 ↔ (e ∈ nw ∧ ∀ x ∈ old, key x ≠ key e) := by
  simp [diffArrays, List.mem_filter, List.all_eq_true]

theorem diffArrays_mem_remove {α : Type} (old nw : List α) (key : α → String) (e : α) :
    e ∈ (diffArrays old nw key).2 ↔ (e ∈ old ∧ ∀ x ∈ nw, key x ≠ key e) := by
  simp [diffArrays, List.mem_filter, List.all_eq_true]

/-- C6: an Update in which the immutable fields, the name, the four scaling
fields and the credential are unchanged but the access list differs issues
exactly one remote call, the general service update, whose payload carries
no name and expresses the access-list change exactly as the add set (desired
entries whose key appears in no observed entry) and the remove set (observed
entries whose key appears in no desired entry); in particular no scaling and
no credential call is issued. -/
theorem c6_access_list_only (plan st : ServiceResourceModel) (o : UpdateOracle) (now : String)
    (hcp : plan.cloudProvider = st.cloudProvider) (hrg : plan.region = st.region)
    (htr : plan.tier = st.tier) (hnm : plan.name = st.name)
    (his : plan.idleScaling = st.idleScaling)
    (hmin : plan.minTotalMemoryGb = st.minTotalMemoryGb)
    (hmax : plan.maxTotalMemoryGb = st.maxTotalMemoryGb)
    (hto : plan.idleTimeoutMinutes = st.idleTimeoutMinutes)
    (hpw : plan.password = st.password)
    (hlist : equal plan.ipAccessList st.ipAccessList = false) :
    ∃ ipu,
      (update plan st o now).1 =
        [RemoteCall.updateService st.id.valueString { name := "", ipAccessList := some ipu }] ∧
      (∀ e, e ∈ ipu.add ↔ (e ∈ plan.ipAccessList.map IpAccessModel.toIpAccess ∧
        ∀ x ∈ st.ipAccessList.map IpAccessModel.toIpAccess, accessKey x ≠ accessKey e)) ∧
      (∀ e, e ∈ ipu.remove ↔ (e ∈ st.ipAccessList.map IpAccessModel.toIpAccess ∧
        ∀ x ∈ plan.ipAccessList.map IpAccessModel.toIpAccess, accessKey x ≠ accessKey e)) := by
  have hv := violatedFields_nil plan st hcp hrg htr
  have hsc : serviceChangeB plan st = true := by
    simp [serviceChangeB, hnm, hlist]
  have hscl : scalingChangeB plan st = false := by
    simp [scalingChangeB, his, hmin, hmax, hto]
  have hbu : buildServiceUpdate plan st =
      { name := ""
        ipAccessList := some
          { add := (diffArrays (st.ipAccessList.map IpAccessModel.toIpAccess)
              (plan.ipAccessList.map IpAccessModel.toIpAccess) accessKey).1
            remove := (diffArrays (st.ipAccessList.map IpAccessModel.toIpAccess)
              (plan.ipAccessList.map IpAccessModel.toIpAccess) accessKey).2 } } := by
    unfold buildServiceUpdate
    rw [if_neg (by simp [hnm]), if_neg (by simp [hlist])]
  refine ⟨{ add := (diffArrays (st.ipAccessList.map IpAccessModel.toIpAccess)
              (plan.ipAccessList.map IpAccessModel.toIpAccess) accessKey).1
            remove := (diffArrays (st.ipAccessList.map IpAccessModel.toIpAccess)
              (plan.ipAccessList.map IpAccessModel.toIpAccess) accessKey).2 },
    ?_, fun e => diffArrays_mem_add _ _ accessKey e,
    fun e => diffArrays_mem_remove _ _ accessKey e⟩
  rw [update_eq_dispatch plan st o now hv]
  rcases ho : o.updateService st.id.valueString (buildServiceUpdate plan st) with e | sv
  · have hG : generalStage plan st o st.id.valueString =
        ([RemoteCall.updateService st.id.valueString (buildServiceUpdate plan st)],
          Except.error e) := by
      rw [generalStage_pos plan st o st.id.valueString hsc, ho]
    simp only [hG, afterGeneral, hbu]
  · have hG : generalStage plan st o st.id.valueString =
        ([RemoteCall.updateService st.id.valueString (buildServiceUpdate plan st)],
          Except.ok (some sv)) := by
      rw [generalStage_pos plan st o st.id.valueString hsc, ho]
    have hS := scalingStage_neg plan st o st.id.valueString (some sv) hscl
    have hP := passwordStage_same plan st o st.id.valueString hpw
    simp only [hG, afterGeneral, hS, afterScaling, hP, afterPassword, hbu,
      List.append_nil, List.nil_append]

/-- Plan for the C6 witness run: the baseline plus a second access entry. -/
def c6Plan : ServiceResourceModel :=
  { baseModel with
    ipAccessList := [accessA,
      { source := ⟨true, "5.6.7.8/32"⟩, description := ⟨true, "B"⟩ }] }

/-- Witness for C6 at a concrete run adding one access entry. -/
theorem c6_access_list_only_witness :
    (c6Plan.cloudProvider = baseModel.cloudProvider ∧ c6Plan.region = baseModel.region ∧
      c6Plan.tier = baseModel.tier ∧ c6Plan.name = baseModel.name ∧
      c6Plan.idleScaling = baseModel.idleScaling ∧
      c6Plan.minTotalMemoryGb = baseModel.minTotalMemoryGb ∧
      c6Plan.maxTotalMemoryGb = baseModel.maxTotalMemoryGb ∧
      c6Plan.idleTimeoutMinutes = baseModel.idleTimeoutMinutes ∧
      c6Plan.password = baseModel.password ∧
      equal c6Plan.ipAccessList baseModel.ipAccessList = false) ∧
    (∃ ipu,
      (update c6Plan baseModel okOracle "t6").1 =
        [RemoteCall.updateService baseModel.id.valueString
          { name := "", ipAccessList := some ipu }] ∧
      (∀ e, e ∈ ipu.add ↔ (e ∈ c6Plan.ipAccessList.map IpAccessModel.toIpAccess ∧
        ∀ x ∈ baseModel.ipAccessList.map IpAccessModel.toIpAccess,
          accessKey x ≠ accessKey e)) ∧
      (∀ e, e ∈ ipu.remove ↔ (e ∈ baseModel.ipAccessList.map IpAccessModel.toIpAccess ∧
        ∀ x ∈ c6Plan.ipAccessList.map IpAccessModel.toIpAccess,
          accessKey x ≠ accessKey e))) :=
  ⟨by decide,
   c6_access_list_only c6Plan baseModel okOracle "t6" rfl rfl rfl rfl rfl rfl rfl rfl rfl
     (by decide)⟩

theorem generalStage_cases (plan st : ServiceResourceModel) (o : UpdateOracle) (sid : String) :
    generalStage plan st o sid = ([], Except.ok none) ∨
    (∃ u sv, generalStage plan st o sid =
        ([RemoteCall.updateService sid u], Except.ok (some sv)) ∧
      o.updateService sid u = Except.ok sv) ∨
    (∃ u e, generalStage plan st o sid =
        ([RemoteCall.updateService sid u], Except.error e) ∧
      o.updateService sid u = Except.error e) := by
  cases hc : serviceChangeB plan st with
  | false => exact Or.inl (generalStage_neg plan st o sid hc)
  | true =>
    rcases ho : o.updateService sid (buildServiceUpdate plan st) with e | sv
    · refine Or.inr (Or.inr ⟨buildServiceUpdate plan st, e, ?_, ho⟩)
      rw [generalStage_pos plan st o sid hc, ho]
    · refine Or.inr (Or.inl ⟨buildServiceUpdate plan st, sv, ?_, ho⟩)
      rw [generalStage_pos plan st o sid hc, ho]

theorem scalingStage_cases (plan st : ServiceResourceModel) (o : UpdateOracle) (sid : String)
    (s1 : Option Service) :
    scalingStage plan st o sid s1 = ([], Except.ok s1) ∨
    (∃ u sv, scalingStage plan st o sid s1 =
        ([RemoteCall.updateServiceScaling sid u], Except.ok (some sv)) ∧
      o.updateServiceScaling sid u = Except.ok sv) ∨
    (∃ u e, scalingStage plan st o sid s1 =
        ([RemoteCall.updateServiceScaling sid u], Except.error e) ∧
      o.updateServiceScaling sid u = Except.error e) := by
  cases hc : scalingChangeB plan st with
  | false => exact Or.inl (scalingStage_neg plan st o sid s1 hc)
  | true =>
    rcases ho : o.updateServiceScaling sid (buildScalingUpdate plan st) with e | sv
    · refine Or.inr (Or.inr ⟨buildScalingUpdate plan st, e, ?_, ho⟩)
      rw [scalingStage_pos plan st o sid s1 hc, ho]
    · refine Or.inr (Or.inl ⟨buildScalingUpdate plan st, sv, ?_, ho⟩)
      rw [scalingStage_pos plan st o sid s1 hc, ho]

theorem passwordStage_cases (plan st : ServiceResourceModel) (o : UpdateOracle)
    (sid : String) :
    (∃ pw, passwordStage plan st o sid = ([], Except.ok pw)) ∨
    (∃ p res pw, passwordStage plan st o sid =
        ([RemoteCall.updateServicePassword sid p], Except.ok pw) ∧
      o.updateServicePassword sid p = Except.ok res) ∨
    (∃ p e, passwordStage plan st o sid =
        ([RemoteCall.updateServicePassword sid p], Except.error e) ∧
      o.updateServicePassword sid p = Except.error e) := by
  by_cases hp : plan.password = st.password
  · exact Or.inl ⟨st.password.goString, passwordStage_same plan st o sid hp⟩
  · rcases ho : o.updateServicePassword sid plan.password.valueString with e | res
    · refine Or.inr (Or.inr ⟨plan.password.valueString, e, ?_, ho⟩)
      unfold passwordStage
      rw [if_neg hp, ho]
    · refine Or.inr (Or.inl ⟨plan.password.valueString, res,
        if res.password.length > 0 then res.password else plan.password.valueString,
        ?_, ho⟩)
      unfold passwordStage
      rw [if_neg hp, ho]

theorem finishUpdate_ne_remoteError (plan : ServiceResourceModel) (pw now : String)
    (s2 : Option Service) (msg : String) :
    finishUpdate plan pw now s2 ≠ UpdateResult.remoteError msg := by
  cases s2 with
  | none => simp [finishUpdate]
  | some sv =>
    unfold finishUpdate
    rcases hw : writeBackIpAccess plan.ipAccessList sv.ipAccessList with _ | l <;> simp [hw]

/-- C8: whenever Update reports a remote error, the issued calls respect the
fixed order general, scaling, password (strictly increasing kinds), the
failing call is the last one issued, every call issued before it succeeded,
and no further call follows the failure (no rollback of applied calls). -/
theorem c8_fail_fast (plan st : ServiceResourceModel) (o : UpdateOracle) (now msg : String)
    (h : (update plan st o now).2 = UpdateResult.remoteError msg) :
    List.Chain' (fun a b => RemoteCall.kindIndex a < RemoteCall.kindIndex b)
      (update plan st o now).1 ∧
    ∃ tr c, (update plan st o now).1 = tr ++ [c] ∧
      callResult o c = Except.error msg ∧ ∀ x ∈ tr, callResult o x = Except.ok () := by
  by_cases hv : violatedFields plan st = []
  case neg =>
    rw [update_eq_violation plan st o now hv] at h
    simp at h
  case pos =>
  rw [update_eq_dispatch plan st o now hv] at h ⊢
  rcases generalStage_cases plan st o st.id.valueString with
    hG | ⟨gu, gsv, hG, hgo⟩ | ⟨gu, ge, hG, hgo⟩
  case inr.inr =>
    simp only [hG, afterGeneral] at h ⊢
    obtain rfl : ge = msg := by simpa using h
    refine ⟨by simp, [], RemoteCall.updateService st.id.valueString gu, by simp, ?_, by simp⟩
    simp [callResult, hgo, Except.map]
  case inl =>
    rcases scalingStage_cases plan st o st.id.valueString none with
      hS | ⟨su, ssv, hS, hso⟩ | ⟨su, se, hS, hso⟩
    case inr.inr =>
      simp only [hG, afterGeneral, hS, afterScaling] at h ⊢
      obtain rfl : se = msg := by simpa using h
      refine ⟨by simp, [], RemoteCall.updateServiceScaling st.id.valueString su,
        by simp, ?_, by simp⟩
      simp [callResult, hso, Except.map]
    case inl =>
      rcases passwordStage_cases plan st o st.id.valueString with
        ⟨ppw, hP⟩ | ⟨pp, pres, ppw, hP, hpo⟩ | ⟨pp, pe, hP, hpo⟩
      · simp only [hG, afterGeneral, hS, afterScaling, hP, afterPassword] at h
        exact absurd h (finishUpdate_ne_remoteError plan ppw now none msg)
      · simp only [hG, afterGeneral, hS, afterScaling, hP, afterPassword] at h
        exact absurd h (finishUpdate_ne_remoteError plan ppw now none msg)
      · simp only [hG, afterGeneral, hS, afterScaling, hP, afterPassword,
          List.nil_append] at h ⊢
        obtain rfl : pe = msg := by simpa using h
        refine ⟨by simp, [], RemoteCall.updateServicePassword st.id.valueString pp,
          by simp, ?_, by simp⟩
        simp [callResult, hpo, Except.map]
    case inr =>
      rcases passwordStage_cases plan st o st.id.valueString with
        ⟨ppw, hP⟩ | ⟨pp, pres, ppw, hP, hpo⟩ | ⟨pp, pe, hP, hpo⟩
      · simp only [hG, afterGeneral, hS, afterScaling, hP, afterPassword] at h
        exact absurd h (finishUpdate_ne_remoteError plan ppw now (some ssv) msg)
      · simp only [hG, afterGeneral, hS, afterScaling, hP, afterPassword] at h
        exact absurd h (finishUpdate_ne_remoteError plan ppw now (some ssv) msg)
      · simp only [hG, afterGeneral, hS, afterScaling, hP, afterPassword,
          List.nil_append] at h ⊢
        obtain rfl : pe = msg := by simpa using h
        refine ⟨by simp [RemoteCall.kindIndex],
          [RemoteCall.updateServiceScaling st.id.valueString su],
          RemoteCall.updateServicePassword st.id.valueString pp, by simp, ?_, ?_⟩
        · simp [callResult, hpo, Except.map]
        · intro x hx
          simp at hx
          subst hx
          simp [callResult, hso, Except.map]
  case inr =>
    rcases scalingStage_cases plan st o st.id.valueString (some gsv) with
      hS | ⟨su, ssv, hS, hso⟩ | ⟨su, se, hS, hso⟩
    case inr.inr =>
      simp only [hG, afterGeneral, hS, afterScaling] at h ⊢
      obtain rfl : se = msg := by simpa using h
      refine ⟨by simp [RemoteCall.kindIndex],
        [RemoteCall.updateService st.id.valueString gu],
        RemoteCall.updateServiceScaling st.id.valueString su, by simp, ?_, ?_⟩
      · simp [callResult, hso, Except.map]
      · intro x hx
        simp at hx
        subst hx
        simp [callResult, hgo, Except.map]
    case inl =>
      rcases passwordStage_cases plan st o st.id.valueString with
        ⟨ppw, hP⟩ | ⟨pp, pres, ppw, hP, hpo⟩ | ⟨pp, pe, hP, hpo⟩
      · simp only [hG, afterGeneral, hS, afterScaling, hP, afterPassword] at h
        exact absurd h (finishUpdate_ne_remoteError plan ppw now (some gsv) msg)
      · simp only [hG, afterGeneral, hS, afterScaling, hP, afterPassword] at h
        exact absurd h (finishUpdate_ne_remoteError plan ppw now (some gsv) msg)
      · simp only [hG, afterGeneral, hS, afterScaling, hP, afterPassword,
          List.nil_append, List.append_nil] at h ⊢
        obtain rfl : pe = msg := by simpa using h
        refine ⟨by simp [RemoteCall.kindIndex],
          [RemoteCall.updateService st.id.valueString gu],
          RemoteCall.updateServicePassword st.id.valueString pp, by simp, ?_, ?_⟩
        · simp [callResult, hpo, Except.map]
        · intro x hx
          simp at hx
          subst hx
          simp [callResult, hgo, Except.map]
    case inr =>
      rcases passwordStage_cases plan st o st.id.valueString with
        ⟨ppw, hP⟩ | ⟨pp, pres, ppw, hP, hpo⟩ | ⟨pp, pe, hP, hpo⟩
      · simp only [hG, afterGeneral, hS, afterScaling, hP, afterPassword] at h
        exact absurd h (finishUpdate_ne_remoteError plan ppw now (some ssv) msg)
      · simp only [hG, afterGeneral, hS, afterScaling, hP, afterPassword] at h
        exact absurd h (finishUpdate_ne_remoteError plan ppw now (some ssv) msg)
      · simp only [hG, afterGeneral, hS, afterScaling, hP, afterPassword] at h ⊢
        obtain rfl : pe = msg := by simpa using h
        refine ⟨by simp [RemoteCall.kindIndex],
          [RemoteCall.updateService st.id.valueString gu,
           RemoteCall.updateServiceScaling st.id.valueString su],
          RemoteCall.updateServicePassword st.id.valueString pp, by simp, ?_, ?_⟩
        · simp [callResult, hpo, Except.map]
        · intro x hx
          simp at hx
          rcases hx with hx | hx <;> subst hx
          · simp [callResult, hgo, Except.map]
          · simp [callResult, hso, Except.map]

/-- Plan for the C8 witness run: name and idle timeout both change. -/
def c8Plan : ServiceResourceModel :=
  { baseModel with name := ⟨true, "svc8"⟩, idleTimeoutMinutes := ⟨true, 15⟩ }

/-- Oracle for the C8 witness run: the scaling call fails. -/
def failOracle : UpdateOracle :=
  { okOracle with updateServiceScaling := fun _ _ => Except.error "boom" }

/-- Witness for C8 at a concrete run whose scaling call fails after a
successful general call. -/
theorem c8_fail_fast_witness :
    (update c8Plan baseModel failOracle "t8").2 = UpdateResult.remoteError "boom" ∧
    (List.Chain' (fun a b => RemoteCall.kindIndex a < RemoteCall.kindIndex b)
        (update c8Plan baseModel failOracle "t8").1 ∧
      ∃ tr c, (update c8Plan baseModel failOracle "t8").1 = tr ++ [c] ∧
        callResult failOracle c = Except.error "boom" ∧
        ∀ x ∈ tr, callResult failOracle x = Except.ok ()) :=
  ⟨rfl, c8_fail_fast c8Plan baseModel failOracle "t8" "boom" rfl⟩

/-! String helper lemmas for the key-function claim. -/

theorem string_data_injective (a b : String) (h : a.data = b.data) : a = b := by
  cases a
  cases b
  cases h
  rfl

theorem string_data_append (a b : String) : (a ++ b).data = a.data ++ b.data := by
  cases a
  cases b
  rfl

theorem sep_split_inj {l1 r1 l2 r2 : List Char}
    (h1 : ':' ∉ l1) (h2 : ':' ∉ l2)
    (h : l1 ++ ':' :: r1 = l2 ++ ':' :: r2) : l1 = l2 ∧ r1 = r2 := by
  induction l1 generalizing l2 with
  | nil =>
    cases l2 with
    | nil => simpa using h
    | cons b t =>
      injection h with hb _
      exact absurd (hb ▸ List.mem_cons_self b t) h2
  | cons a t1 ih =>
    cases l2 with
    | nil =>
      injection h with hb _
      exact absurd (hb ▸ List.mem_cons_self a t1) h1
    | cons b t2 =>
      injection h with hab ht
      have h1t : ':' ∉ t1 := fun hm => h1 (List.mem_cons_of_mem a hm)
      have h2t : ':' ∉ t2 := fun hm => h2 (List.mem_cons_of_mem b hm)
      obtain ⟨hl, hr⟩ := ih h1t h2t ht
      exact ⟨by rw [hab, hl], hr⟩

/-- C7 counterexample: the key function of service.go line 396 is not
injective when a source contains the separator character: two entries with
different sources share the key "a:b:c". -/
theorem c7_counterexample :
    accessKey { source := "a:b", description := "c" } =
      accessKey { source := "a", description := "b:c" } ∧
    ({ source := "a:b", description := "c" } : IpAccess).source ≠
      ({ source := "a", description := "b:c" } : IpAccess).source := by
  exact ⟨rfl, by decide⟩

/-- C7 amended: the key function is injective on entries whose source
contains no separator character: equal keys then force equal sources and
equal descriptions. -/
theorem c7_key_injective_no_sep (a b : IpAccess)
    (ha : ':' ∉ a.source.data) (hb : ':' ∉ b.source.data)
    (hk : accessKey a = accessKey b) :
    a.source = b.source ∧ a.description = b.description := by
  have hcolon : (":" : String).data = [':'] := rfl
  have hd : a.source.data ++ ':' :: a.description.data =
      b.source.data ++ ':' :: b.description.data := by
    have h0 := congrArg String.data hk
    simpa [accessKey, string_data_append, hcolon, List.append_assoc] using h0
  obtain ⟨hs, hdsc⟩ := sep_split_inj ha hb hd
  exact ⟨string_data_injective _ _ hs, string_data_injective _ _ hdsc⟩

/-- Witness for the amended C7 at a concrete separator-free entry. -/
theorem c7_key_injective_no_sep_witness :
    (':' ∉ ("1.2.3.4/32" : String).data) ∧
    accessKey { source := "1.2.3.4/32", description := "A" } =
      accessKey { source := "1.2.3.4/32", description := "A" } ∧
    (({ source := "1.2.3.4/32", description := "A" } : IpAccess).source =
        ({ source := "1.2.3.4/32", description := "A" } : IpAccess).source ∧
      ({ source := "1.2.3.4/32", description := "A" } : IpAccess).description =
        ({ source := "1.2.3.4/32", description := "A" } : IpAccess).description) :=
  ⟨by decide, rfl,
    c7_key_injective_no_sep
      { source := "1.2.3.4/32", description := "A" }
      { source := "1.2.3.4/32", description := "A" }
      (by decide) (by decide) rfl⟩

end Clickhouse
